import Mathlib

/-!
Shallow embedding of `src/api-design/scripts/generate_openapi.py`, an OpenAPI
3.0 generator that turns a declarative data model (entities with typed
attributes) into an OpenAPI document.

Modelling conventions:
* Parsed JSON output documents are values of the inductive `Json` below;
  Python dicts are insertion-ordered association lists (`List (String × Json)`),
  and Python dict assignment `d[k] = v` is `setKey` (replace in place when the
  key exists, append otherwise), as in CPython.
* Python `.get(k, default)` on the parsed input becomes an `Option` field plus
  `Option.getD`.
* Python numbers in the output are modelled as `Rat` (their identity, not
  floating-point behaviour, is what the generated document carries here).
* `str.lower` / `str.title` / `str.replace` are modelled for ASCII text
  (`pyLower`, `pyTitle`, `replaceChar`).
* `list(s)` on a Python `set` of strings has an order that depends on the
  interpreter's string-hash seed, which varies between processes.  The
  conversion is therefore modelled as an explicit enumeration parameter
  `setToList`; any faithful instantiation satisfies `validEnum` (it returns a
  duplicate-free list with exactly the set's members).
-/

namespace OpenAPIGen

/-- JSON-like values: the output document tree. Objects are insertion-ordered
association lists, mirroring CPython dicts. -/
inductive Json where
  | null : Json
  | bool : Bool → Json
  | num : Rat → Json
  | str : String → Json
  | arr : List Json → Json
  | obj : List (String × Json) → Json

/-- Python dict lookup `d[k]` / `d.get(k)`: first (unique) match in the
association list. -/
def assocFind (k : String) : List (String × Json) → Option Json
  | [] => none
  | (k2, v) :: rest => if k2 = k then some v else assocFind k rest

/-- Python dict assignment `d[k] = v`: replace the value in place when the key
exists (keeping its position), append the pair otherwise. -/
def setKey (kvs : List (String × Json)) (k : String) (v : Json) : List (String × Json) :=
  if kvs.any (fun p => p.1 == k) then
    kvs.map (fun p => if p.1 == k then (k, v) else p)
  else kvs ++ [(k, v)]

/-- ASCII model of Python `str.lower`. -/
def pyLower (s : String) : String :=
  ⟨s.data.map Char.toLower⟩

/-- ASCII letter test, the "cased character" notion used by `pyTitle`. -/
def isAsciiLetter (c : Char) : Bool :=
  (('a' ≤ c) && (c ≤ 'z')) || (('A' ≤ c) && (c ≤ 'Z'))

/-- Helper for `pyTitle`: the flag records whether the previous character was a
letter; a letter after a non-letter is uppercased, a letter after a letter is
lowercased, non-letters pass through. -/
def titleAux : Bool → List Char → List Char
  | _, [] => []
  | prevAlpha, c :: cs =>
      (if isAsciiLetter c then (if prevAlpha then c.toLower else c.toUpper) else c)
        :: titleAux (isAsciiLetter c) cs

/-- ASCII model of Python `str.title`. -/
def pyTitle (s : String) : String :=
  ⟨titleAux false s.data⟩

/-- Model of Python `str.replace(old, new)` for single-character patterns (the
generator only uses `replace('_', ' ')`). -/
def replaceChar (s : String) (oldc newc : Char) : String :=
  ⟨s.data.map (fun c => if c == oldc then newc else c)⟩

/-- The `taxonomy_classification` mapping an entity may carry: an optional
`compliance` list of strings plus arbitrary further keys, carried through
verbatim. -/
structure TaxonomyClassification where
  compliance : Option (List String)
  extra : List (String × Json)

/-- An attribute record of the input model: `name` and `type` are mandatory
(`attr['name']`, `attr['type']`), the rest are read with `.get` defaults. -/
structure Attribute where
  name : String
  type : String
  description : Option String
  max_length : Option Int
  required : Option Bool

/-- An entity record of the input model: `entity['name']` is mandatory,
`attributes` defaults to `[]`, `taxonomy_classification` is optional. -/
structure Entity where
  name : String
  attributes : Option (List Attribute)
  taxonomy_classification : Option TaxonomyClassification

/-- The `model` metadata block; every field is read with `.get`. -/
structure ModelInfo where
  domain : Option String
  version : Option String
  description : Option String

/-- The parsed input model file: `model.get('model', {})` and
`model.get('entities', [])`. -/
structure Model where
  model : Option ModelInfo
  entities : Option (List Entity)

/-- Default for `model.get('model', {})` when the block is absent. -/
def emptyModelInfo : ModelInfo := ⟨none, none, none⟩

/-- Render a `taxonomy_classification` back as JSON when attached verbatim to
an entity schema. -/
def taxClsToJson (tc : TaxonomyClassification) : Json :=
  Json.obj ((match tc.compliance with
    | some l => [("compliance", Json.arr (l.map Json.str))]
    | none => []) ++ tc.extra)

/-- The fixed `type_mapping` table of `_map_data_type`: declared type to
(output type, optional format). -/
def type_mapping : List (String × (String × Option String)) :=
  [("uuid", ("string", some "uuid")),
   ("email", ("string", some "email")),
   ("phone", ("string", some "phone")),
   ("currency", ("number", some "decimal")),
   ("datetime", ("string", some "date-time")),
   ("date", ("string", some "date")),
   ("enum", ("string", none)),
   ("boolean", ("boolean", none)),
   ("integer", ("integer", none)),
   ("float", ("number", some "float")),
   ("string", ("string", none))]

/-- `_map_data_type`: look the declared type up in the fixed table, defaulting
to a bare string type. -/
def mapDataType (data_type : String) : String × Option String :=
  (type_mapping.lookup data_type).getD ("string", none)

/-- The fixed `examples` table of `_generate_example_value` (note: no entry for
`enum`). -/
def example_table : List (String × Json) :=
  [("uuid", Json.str "123e4567-e89b-12d3-a456-426614174000"),
   ("email", Json.str "user@example.com"),
   ("phone", Json.str "+1-555-123-4567"),
   ("currency", Json.num ((9999 : Rat) / 100)),
   ("datetime", Json.str "2023-11-23T10:30:00Z"),
   ("date", Json.str "2023-11-23"),
   ("boolean", Json.bool true),
   ("integer", Json.num 42),
   ("float", Json.num ((157 : Rat) / 50)),
   ("string", Json.str "example value")]

/-- `_generate_example_value`: look the declared type up in the examples table,
defaulting to the literal string "example". -/
def generateExampleValue (data_type : String) : Json :=
  (example_table.lookup data_type).getD (Json.str "example")

/-- One property object of an entity schema, built per attribute inside
`_generate_entity_schema`: type, description and example first, then `format`
when the type mapping provides one, then `maxLength` when `max_length` is
truthy in Python (present and nonzero). -/
def generateProperty (attr : Attribute) : Json :=
  let openapi_type := mapDataType attr.type
  let base := [("type", Json.str openapi_type.1),
               ("description", Json.str (attr.description.getD "")),
               ("example", generateExampleValue attr.type)]
  let withFormat := match openapi_type.2 with
    | some f => base ++ [("format", Json.str f)]
    | none => base
  let withMax := if (attr.max_length.getD 0) != 0 then
      withFormat ++ [("maxLength", Json.num ((attr.max_length.getD 0 : Int) : Rat))]
    else withFormat
  Json.obj withMax

/-- One step of the attribute loop of `_generate_entity_schema`: assign the
property under the attribute name and append the name to the `required` list
when `attr.get('required', False)` is true. -/
def schemaStep (acc : List (String × Json) × List Json) (attr : Attribute) :
    List (String × Json) × List Json :=
  (setKey acc.1 attr.name (generateProperty attr),
   if attr.required.getD false then acc.2 ++ [Json.str attr.name] else acc.2)

/-- `_generate_entity_schema`: an object schema with `properties` and
`required` accumulated over the attributes, plus the entity's
`taxonomy_classification` attached verbatim when present. -/
def generateEntitySchema (entity : Entity) : Json :=
  let pr := (entity.attributes.getD []).foldl schemaStep ([], [])
  let base := [("type", Json.str "object"),
               ("properties", Json.obj pr.1),
               ("required", Json.arr pr.2)]
  match entity.taxonomy_classification with
  | some tc => Json.obj (base ++ [("x-taxonomy", taxClsToJson tc)])
  | none => Json.obj base

/-- A `$ref` object pointing at a component schema. -/
def refSchema (name : String) : Json :=
  Json.obj [("$ref", Json.str ("#/components/schemas/" ++ name))]

/-- The collection path key `/{schema_name}s` (naive plural). -/
def basePathOf (schema_name : String) : String := "/" ++ schema_name ++ "s"

/-- The item path key `/{schema_name}s/\x7b{schema_name}Id\x7d`. -/
def entityPathOf (schema_name : String) : String :=
  basePathOf schema_name ++ "/\x7b" ++ schema_name ++ "Id\x7d"

/-- The GET operation on the collection path of `_generate_entity_paths`. -/
def listOperation (entity_name : String) : Json :=
  Json.obj [("summary", Json.str ("List " ++ entity_name ++ "s")),
            ("operationId", Json.str ("list" ++ entity_name ++ "s")),
            ("responses", Json.obj [("200", Json.obj [
               ("description", Json.str "Successful response"),
               ("content", Json.obj [("application/json", Json.obj [
                 ("schema", Json.obj [
                   ("type", Json.str "object"),
                   ("properties", Json.obj [
                     ("data", Json.obj [
                       ("type", Json.str "array"),
                       ("items", refSchema entity_name)])])])])])])])]

/-- The POST operation on the collection path of `_generate_entity_paths`. -/
def createOperation (entity_name : String) : Json :=
  Json.obj [("summary", Json.str ("Create " ++ entity_name)),
            ("operationId", Json.str ("create" ++ entity_name)),
            ("requestBody", Json.obj [
               ("required", Json.bool true),
               ("content", Json.obj [("application/json", Json.obj [
                  ("schema", refSchema ("Create" ++ entity_name ++ "Request"))])])]),
            ("responses", Json.obj [("201", Json.obj [
               ("description", Json.str (entity_name ++ " created successfully")),
               ("content", Json.obj [("application/json", Json.obj [
                  ("schema", refSchema (entity_name ++ "Response"))])])])])]

/-- The GET operation on the item path of `_generate_entity_paths`. -/
def getOperation (entity_name schema_name : String) : Json :=
  Json.obj [("summary", Json.str ("Get " ++ entity_name)),
            ("operationId", Json.str ("get" ++ entity_name)),
            ("parameters", Json.arr [Json.obj [
               ("name", Json.str (schema_name ++ "Id")),
               ("in", Json.str "path"),
               ("required", Json.bool true),
               ("schema", Json.obj [("type", Json.str "string"),
                                    ("format", Json.str "uuid")])]]),
            ("responses", Json.obj [("200", Json.obj [
               ("description", Json.str "Successful response"),
               ("content", Json.obj [("application/json", Json.obj [
                  ("schema", refSchema (entity_name ++ "Response"))])])])])]

/-- `_generate_entity_paths`: the two path items of one entity, keyed by the
collection path and the item path. -/
def generateEntityPaths (entity_name schema_name : String) : List (String × Json) :=
  [(basePathOf schema_name,
    Json.obj [("get", listOperation entity_name), ("post", createOperation entity_name)]),
   (entityPathOf schema_name,
    Json.obj [("get", getOperation entity_name schema_name)])]

/-- One standard error response object. -/
def errorResponse (desc : String) : Json :=
  Json.obj [("description", Json.str desc),
            ("content", Json.obj [("application/json", Json.obj [
               ("schema", refSchema "Error")])])]

/-- `_generate_standard_responses`: the fixed four-entry table. -/
def generateStandardResponses : Json :=
  Json.obj [("BadRequest", errorResponse "Bad request"),
            ("Unauthorized", errorResponse "Authentication required"),
            ("Forbidden", errorResponse "Access denied"),
            ("NotFound", errorResponse "Resource not found")]

/-- One entity's contribution to the compliance set:
`entity['taxonomy_classification'].get('compliance', [])` when the
classification is present, nothing otherwise. -/
def entityCompliance (entity : Entity) : List String :=
  match entity.taxonomy_classification with
  | some tc => tc.compliance.getD []
  | none => []

/-- The insertion sequence fed to the compliance set of
`_extract_compliance_requirements`, in entity order. -/
def complianceSeq : List Entity → List String
  | [] => []
  | e :: rest => entityCompliance e ++ complianceSeq rest

/-- A faithful model of `list : set → list` for string sets: the result is
duplicate-free and has exactly the members of the insertion sequence.  The
order is interpreter-dependent (hash randomization), hence left abstract. -/
def validEnum (f : List String → List String) : Prop :=
  ∀ l : List String, (f l).Nodup ∧ (∀ s : String, s ∈ f l ↔ s ∈ l)

/-- `dict.update` over the generated entity path items, in their listed order. -/
def updatePaths (paths : List (String × Json)) (new : List (String × Json)) :
    List (String × Json) :=
  new.foldl (fun acc kv => setKey acc kv.1 kv.2) paths

/-- One step of the entity loop of `generate_from_model`: assign the entity
schema under the entity name and merge the two path items. -/
def genStep (acc : List (String × Json) × List (String × Json)) (entity : Entity) :
    List (String × Json) × List (String × Json) :=
  (setKey acc.1 entity.name (generateEntitySchema entity),
   updatePaths acc.2 (generateEntityPaths entity.name (pyLower entity.name)))

/-- `model_info.get(key)` with no default renders as JSON null when absent. -/
def jsonOfOptStr : Option String → Json
  | some s => Json.str s
  | none => Json.null

/-- `OpenAPIGenerator.generate_from_model`: assemble the document.  `taxonomy`
is the mapping held by the generator (empty when no taxonomy file was loaded);
`setToList` is the abstract set-enumeration (see `validEnum`). -/
def generate_from_model (m : Model) (taxonomy : List (String × Json))
    (setToList : List String → List String) : Json :=
  let model_info := m.model.getD emptyModelInfo
  let entities := m.entities.getD []
  let info := Json.obj [
    ("title", Json.str (pyTitle (replaceChar (model_info.domain.getD "API") '_' ' ') ++ " API")),
    ("version", Json.str (model_info.version.getD "1.0.0")),
    ("description", Json.str (model_info.description.getD "")),
    ("contact", Json.obj [("name", Json.str "API Development Team"),
                          ("email", Json.str "api@empathyfirstmedia.com")])]
  let servers := Json.arr [Json.obj [
    ("url", Json.str "https://api.empathyfirstmedia.com/v1"),
    ("description", Json.str "Production server")]]
  let sp := entities.foldl genStep ([], [])
  let base := [("openapi", Json.str "3.0.3"),
               ("info", info),
               ("servers", servers),
               ("paths", Json.obj sp.2),
               ("components", Json.obj [("schemas", Json.obj sp.1),
                                        ("responses", generateStandardResponses)])]
  if taxonomy.isEmpty then Json.obj base
  else Json.obj (base ++ [("x-taxonomy", Json.obj [
    ("domain", jsonOfOptStr model_info.domain),
    ("version", jsonOfOptStr model_info.version),
    ("compliance", Json.arr ((setToList (complianceSeq entities)).map Json.str))])])

/-- Outcome of reading and parsing one input file. -/
inductive FileRead (α : Type) where
  | missing : FileRead α
  | malformed : FileRead α
  | ok : α → FileRead α

/-- The fatal error taxonomy of the tool. -/
inductive GenError where
  | notFound : GenError
  | parseError : GenError
deriving DecidableEq

/-- `OpenAPIGenerator.__init__`: no `--taxonomy` argument or an absent file
yields the empty mapping silently; an existing but malformed file raises. -/
def loadTaxonomy : Option (FileRead (List (String × Json))) →
    Except GenError (List (String × Json))
  | none => Except.ok []
  | some FileRead.missing => Except.ok []
  | some FileRead.malformed => Except.error GenError.parseError
  | some (FileRead.ok t) => Except.ok t

/-- `main`: construct the generator, generate, then write.  `Except.ok doc`
models a zero exit with `doc` written to the output file; `Except.error`
models an uncaught exception: non-zero exit, and no output file is created
because the write comes after generation succeeds. -/
def mainRun (modelFile : FileRead Model)
    (taxonomyArg : Option (FileRead (List (String × Json))))
    (setToList : List String → List String) : Except GenError Json :=
  match loadTaxonomy taxonomyArg with
  | Except.error e => Except.error e
  | Except.ok tax =>
    match modelFile with
    | FileRead.missing => Except.error GenError.notFound
    | FileRead.malformed => Except.error GenError.parseError
    | FileRead.ok m => Except.ok (generate_from_model m tax setToList)

/-- Object lookup on a JSON value. -/
def Json.lookup (j : Json) (k : String) : Option Json :=
  match j with
  | Json.obj kvs => assocFind k kvs
  | _ => none

/-- The keys of a JSON object, in order. -/
def Json.keys : Json → List String
  | Json.obj kvs => kvs.map Prod.fst
  | _ => []

/-- The keys of the `paths` mapping of a generated document. -/
def pathsKeys (d : Json) : List String :=
  ((d.lookup "paths").getD Json.null).keys

/-- The keys of the `components.schemas` mapping of a generated document. -/
def schemasKeys (d : Json) : List String :=
  ((((d.lookup "components").getD Json.null).lookup "schemas").getD Json.null).keys

/-- The `info.title` of a generated document. -/
def titleOf (d : Json) : Option Json :=
  ((d.lookup "info").getD Json.null).lookup "title"

/-- The compliance string list of the `x-taxonomy` extension, empty when the
extension or the list is absent. -/
def complianceOf (d : Json) : List String :=
  match ((d.lookup "x-taxonomy").getD Json.null).lookup "compliance" with
  | some (Json.arr xs) => xs.filterMap (fun j => match j with
      | Json.str s => some s
      | _ => none)
  | _ => []

/-- Replace the value at key `k` of a JSON object (if any) by `f` of it. -/
def setAtKey (j : Json) (k : String) (f : Json → Json) : Json :=
  match j with
  | Json.obj kvs => Json.obj (kvs.map (fun p => if p.1 == k then (p.1, f p.2) else p))
  | _ => j

/-- A generated document with the order-sensitive compliance list blanked out. -/
def stripCompliance (d : Json) : Json :=
  setAtKey d "x-taxonomy" (fun x => setAtKey x "compliance" (fun _ => Json.null))

/-- The `x-taxonomy` extension value attached when the taxonomy mapping is
non-empty: derived from the model only, never from the taxonomy contents. -/
def xTaxonomyValue (m : Model) (e : List String → List String) : Json :=
  Json.obj [("domain", jsonOfOptStr (m.model.getD emptyModelInfo).domain),
            ("version", jsonOfOptStr (m.model.getD emptyModelInfo).version),
            ("compliance", Json.arr ((e (complianceSeq (m.entities.getD []))).map Json.str))]

/-- The recognized declared types: the keys of `type_mapping`. -/
def recognizedTypes : List String :=
  ["uuid", "email", "phone", "currency", "datetime", "date", "enum",
   "boolean", "integer", "float", "string"]

/-- The two path keys one entity contributes. -/
def entityPathKeys (en : Entity) : List String :=
  [basePathOf (pyLower en.name), entityPathOf (pyLower en.name)]

/-- The path keys all entities contribute, in order. -/
def allPathKeys : List Entity → List String
  | [] => []
  | en :: rest => entityPathKeys en ++ allPathKeys rest

/-- A second faithful set enumeration, distinct from `List.dedup`: same
members, no duplicates, different order.  Models a run of the interpreter with
a different string-hash seed. -/
def enumRev : List String → List String := fun l => (List.dedup l).reverse

/-! Concrete test fixtures, taken from the spec's example scenario and small
variations of it. -/

/-- Attribute `id : uuid, required` of the spec's example scenario. -/
def attrU : Attribute := ⟨"id", "uuid", none, none, some true⟩

/-- Attribute `email : email, required` of the spec's example scenario. -/
def attrE : Attribute := ⟨"email", "email", none, none, some true⟩

/-- Entity `User` of the spec's example scenario. -/
def entU : Entity := ⟨"User", some [attrU, attrE], none⟩

/-- The spec's example model: domain `user_account`, version `2.0.0`. -/
def mUA : Model := ⟨some ⟨some "user_account", some "2.0.0", none⟩, some [entU]⟩

/-- A model with no `model` metadata block at all (domain absent). -/
def mNoDomain : Model := ⟨none, some []⟩

/-- Entity named `A` (no attributes). -/
def entA : Entity := ⟨"A", some [], none⟩

/-- Entity named `a` (no attributes): distinct name, same lowercased name. -/
def enta : Entity := ⟨"a", some [], none⟩

/-- A model with two distinctly named entities whose lowercased names clash. -/
def mAa : Model := ⟨none, some [entA, enta]⟩

/-- Classification with compliance list `[GDPR]`. -/
def tcG : TaxonomyClassification := ⟨some ["GDPR"], []⟩

/-- Classification with compliance list `[HIPAA, GDPR]`. -/
def tcHG : TaxonomyClassification := ⟨some ["HIPAA", "GDPR"], []⟩

/-- Entity carrying compliance `[GDPR]`. -/
def entG : Entity := ⟨"G", some [], some tcG⟩

/-- Entity carrying compliance `[HIPAA, GDPR]`. -/
def entH : Entity := ⟨"H", some [], some tcHG⟩

/-- The two-entity model of the spec's compliance-union test. -/
def mGH : Model := ⟨none, some [entG, entH]⟩

/-- A non-empty taxonomy mapping with a marker entry of its own. -/
def taxCustom : List (String × Json) := [("custom_key", Json.str "custom_value")]

/-- An attribute carrying `max_length: 0`. -/
def attrML0 : Attribute := ⟨"note", "string", none, some 0, none⟩

/-- An attribute carrying `max_length: 5`. -/
def attrML5 : Attribute := ⟨"nick", "string", none, some 5, none⟩

/-- An attribute with the unrecognized declared type `geo`. -/
def attrGeo : Attribute := ⟨"loc", "geo", none, none, none⟩

/-! Helper lemmas. -/

/-- `List.dedup` is a faithful set enumeration. -/
theorem validEnum_dedup : validEnum List.dedup :=
  fun l => ⟨List.nodup_dedup l, fun _ => List.mem_dedup⟩

/-- `enumRev` is a faithful set enumeration. -/
theorem validEnum_enumRev : validEnum enumRev :=
  fun l => ⟨by simpa [enumRev] using List.nodup_dedup l,
            fun s => by simp [enumRev, List.mem_dedup]⟩

/-- C2 counterexample: with the `domain` field absent the generated title is
"Api API" (the " API" suffix lies outside the titlecasing), not the "Api Api"
the claim states. -/
theorem title_default_counterexample :
    titleOf (generate_from_model mNoDomain [] List.dedup) = some (Json.str "Api API") ∧
    "Api API" ≠ "Api Api" :=
  ⟨rfl, by decide⟩

/-- C2 (amended): the generated `info.title` is the titlecased domain, with
underscores replaced by spaces, suffixed with " API"; domain "user_account"
yields "User Account API", and an absent domain yields the default "Api API". -/
theorem generate_title (m : Model) (t : List (String × Json))
    (e : List String → List String) :
    titleOf (generate_from_model m t e) =
      some (Json.str (pyTitle (replaceChar
        ((m.model.getD emptyModelInfo).domain.getD "API") '_' ' ') ++ " API")) ∧
    titleOf (generate_from_model mUA [] List.dedup) = some (Json.str "User Account API") ∧
    titleOf (generate_from_model mNoDomain [] List.dedup) = some (Json.str "Api API") := by
  refine ⟨?_, rfl, rfl⟩
  by_cases ht : t.isEmpty <;>
    simp [generate_from_model, titleOf, Json.lookup, assocFind, ht]

/-- C10: the taxonomy mapping influences the generated document only through
whether it is empty: two generators whose taxonomy mappings are both empty or
both non-empty produce identical documents. -/
theorem taxonomy_noninterference (m : Model) (t1 t2 : List (String × Json))
    (e : List String → List String) (h : t1.isEmpty = t2.isEmpty) :
    generate_from_model m t1 e = generate_from_model m t2 e := by
  unfold generate_from_model
  rw [h]

/-- C10 witness: two different non-empty taxonomy mappings give the same
document. -/
theorem taxonomy_noninterference_witness :
    generate_from_model mGH [("a", Json.null)] List.dedup =
      generate_from_model mGH [("b", Json.str "x"), ("c", Json.null)] List.dedup :=
  taxonomy_noninterference mGH [("a", Json.null)]
    [("b", Json.str "x"), ("c", Json.null)] List.dedup rfl

/-- C9: generation is all-or-nothing: a missing or malformed model file (and a
malformed taxonomy file) makes the run end in an error before any document is
produced, and a successful run produces exactly the generated document of the
parsed model. -/
theorem mainRun_all_or_nothing :
    (∀ (targ : Option (FileRead (List (String × Json))))
       (e : List String → List String),
       ∃ err, mainRun FileRead.missing targ e = Except.error err) ∧
    (∀ (targ : Option (FileRead (List (String × Json))))
       (e : List String → List String),
       ∃ err, mainRun FileRead.malformed targ e = Except.error err) ∧
    (∀ (mf : FileRead Model) (targ : Option (FileRead (List (String × Json))))
       (e : List String → List String) (doc : Json),
       mainRun mf targ e = Except.ok doc →
       ∃ m tax, mf = FileRead.ok m ∧ loadTaxonomy targ = Except.ok tax ∧
         doc = generate_from_model m tax e) := by
  refine ⟨?_, ?_, ?_⟩
  · intro targ e
    rcases targ with _ | tf
    · exact ⟨GenError.notFound, rfl⟩
    · cases tf
      · exact ⟨GenError.notFound, rfl⟩
      · exact ⟨GenError.parseError, rfl⟩
      · exact ⟨GenError.notFound, rfl⟩
  · intro targ e
    rcases targ with _ | tf
    · exact ⟨GenError.parseError, rfl⟩
    · cases tf
      · exact ⟨GenError.parseError, rfl⟩
      · exact ⟨GenError.parseError, rfl⟩
      · exact ⟨GenError.parseError, rfl⟩
  · intro mf targ e doc h
    unfold mainRun at h
    cases hl : loadTaxonomy targ with
    | error err => rw [hl] at h; exact absurd h (by simp)
    | ok tax =>
        rw [hl] at h
        cases mf with
        | missing => exact absurd h (by simp)
        | malformed => exact absurd h (by simp)
        | ok m =>
            refine ⟨m, tax, rfl, rfl, ?_⟩
            simpa using h.symm

/-- C9 witness: a successful run on the example model produces exactly its
generated document. -/
theorem mainRun_all_or_nothing_witness :
    ∃ m tax, FileRead.ok mUA = FileRead.ok m ∧
      loadTaxonomy none = Except.ok tax ∧
      generate_from_model mUA [] List.dedup = generate_from_model m tax List.dedup :=
  mainRun_all_or_nothing.2.2 (FileRead.ok mUA) none List.dedup
    (generate_from_model mUA [] List.dedup) rfl

/-- C5 counterexample: an attribute carrying `max_length: 0` gets no
`maxLength` field at all (`if attr.get('max_length'):` is a Python truthiness
test), contradicting the claim that every present `max_length` is attached. -/
theorem maxLength_zero_counterexample :
    attrML0.max_length = some 0 ∧
    (generateProperty attrML0).lookup "maxLength" = none :=
  ⟨rfl, rfl⟩

/-- C5 (amended): a present and nonzero `max_length` is attached as
`maxLength`; an absent or zero `max_length` yields no `maxLength` field. -/
theorem maxLength_iff_nonzero (attr : Attribute) :
    (∀ v : Int, attr.max_length = some v → v ≠ 0 →
      (generateProperty attr).lookup "maxLength" = some (Json.num (v : Rat))) ∧
    (attr.max_length = none → (generateProperty attr).lookup "maxLength" = none) ∧
    (attr.max_length = some 0 → (generateProperty attr).lookup "maxLength" = none) := by
  refine ⟨?_, ?_, ?_⟩
  · intro v hv hnz
    cases hf : (mapDataType attr.type).2 <;>
      simp [generateProperty, Json.lookup, assocFind, hf, hv, hnz]
  · intro hv
    cases hf : (mapDataType attr.type).2 <;>
      simp [generateProperty, Json.lookup, assocFind, hf, hv]
  · intro hv
    cases hf : (mapDataType attr.type).2 <;>
      simp [generateProperty, Json.lookup, assocFind, hf, hv]

/-- C5 witness: `max_length: 5` is attached as `maxLength: 5`. -/
theorem maxLength_iff_nonzero_witness :
    (generateProperty attrML5).lookup "maxLength" = some (Json.num ((5 : Int) : Rat)) :=
  (maxLength_iff_nonzero attrML5).1 5 rfl (by decide)

/-- C8 counterexample: the loaded taxonomy mapping's own contents are never
merged into the output; the `x-taxonomy` extension the non-empty mapping
triggers holds only model-derived data, and the taxonomy's `custom_key` entry
appears nowhere under it. -/
theorem taxonomy_contents_not_merged :
    assocFind "custom_key" taxCustom = some (Json.str "custom_value") ∧
    (((generate_from_model mUA taxCustom List.dedup).lookup "x-taxonomy").getD
        Json.null).lookup "custom_key" = none ∧
    (generate_from_model mUA [] List.dedup).lookup "x-taxonomy" = none :=
  ⟨rfl, rfl, rfl⟩

/-- C8 (amended): a non-empty taxonomy mapping causes an `x-taxonomy` key at
the document root whose value is derived from the model alone (domain,
version, compliance union), and an empty or absent taxonomy produces no
`x-taxonomy` key. -/
theorem xtaxonomy_presence (m : Model) (t : List (String × Json))
    (e : List String → List String) :
    (t.isEmpty = true → (generate_from_model m t e).lookup "x-taxonomy" = none) ∧
    (t.isEmpty = false → (generate_from_model m t e).lookup "x-taxonomy" =
      some (xTaxonomyValue m e)) := by
  constructor
  · intro ht
    simp [generate_from_model, Json.lookup, assocFind, ht]
  · intro ht
    simp [generate_from_model, Json.lookup, assocFind, ht, xTaxonomyValue]

/-- C8 witness: presence with a non-empty mapping, absence with the empty
mapping, on the example model. -/
theorem xtaxonomy_presence_witness :
    (generate_from_model mUA [] List.dedup).lookup "x-taxonomy" = none ∧
    (generate_from_model mUA taxCustom List.dedup).lookup "x-taxonomy" =
      some (xTaxonomyValue mUA List.dedup) :=
  ⟨(xtaxonomy_presence mUA [] List.dedup).1 rfl,
   (xtaxonomy_presence mUA taxCustom List.dedup).2 rfl⟩

/-- Association-list lookup misses when no key matches. -/
theorem lookup_eq_none {α : Type} (t : String) :
    ∀ l : List (String × α), (∀ p ∈ l, p.1 ≠ t) → List.lookup t l = none := by
  intro l
  induction l with
  | nil => intro _; rfl
  | cons p rest ih =>
      intro h
      have hne : (t == p.1) = false :=
        beq_eq_false_iff_ne.mpr (Ne.symm (h p (List.mem_cons_self p rest)))
      simp only [List.lookup, hne]
      exact ih (fun q hq => h q (List.mem_cons_of_mem p hq))

/-- The type, format and example fields of a generated property, for any
attribute. -/
theorem generateProperty_fields (attr : Attribute) :
    (generateProperty attr).lookup "type" = some (Json.str (mapDataType attr.type).1) ∧
    (generateProperty attr).lookup "format" = Option.map Json.str (mapDataType attr.type).2 ∧
    (generateProperty attr).lookup "example" = some (generateExampleValue attr.type) := by
  cases hf : (mapDataType attr.type).2 <;>
    by_cases hm : (attr.max_length.getD 0) != 0 <;>
      simp [generateProperty, Json.lookup, assocFind, hf, hm]

/-- C4: every recognized declared type maps exactly as the fixed table states,
every generated property carries that type and format, and every unrecognized
type yields a bare string property with no format and example "example". -/
theorem type_mapping_exact :
    (∀ attr : Attribute,
      (generateProperty attr).lookup "type" = some (Json.str (mapDataType attr.type).1) ∧
      (generateProperty attr).lookup "format" = Option.map Json.str (mapDataType attr.type).2) ∧
    (mapDataType "uuid" = ("string", some "uuid") ∧
     mapDataType "email" = ("string", some "email") ∧
     mapDataType "phone" = ("string", some "phone") ∧
     mapDataType "currency" = ("number", some "decimal") ∧
     mapDataType "datetime" = ("string", some "date-time") ∧
     mapDataType "date" = ("string", some "date") ∧
     mapDataType "enum" = ("string", none) ∧
     mapDataType "boolean" = ("boolean", none) ∧
     mapDataType "integer" = ("integer", none) ∧
     mapDataType "float" = ("number", some "float") ∧
     mapDataType "string" = ("string", none)) ∧
    (∀ t : String, t ∉ recognizedTypes →
      mapDataType t = ("string", none) ∧
      generateExampleValue t = Json.str "example" ∧
      ∀ attr : Attribute, attr.type = t →
        (generateProperty attr).lookup "type" = some (Json.str "string") ∧
        (generateProperty attr).lookup "format" = none ∧
        (generateProperty attr).lookup "example" = some (Json.str "example")) := by
  refine ⟨?_, ⟨rfl, rfl, rfl, rfl, rfl, rfl, rfl, rfl, rfl, rfl, rfl⟩, ?_⟩
  · intro attr
    exact ⟨(generateProperty_fields attr).1, (generateProperty_fields attr).2.1⟩
  · intro t ht
    have hmap : mapDataType t = ("string", none) := by
      have hnone : List.lookup t type_mapping = none := by
        apply lookup_eq_none
        intro p hp he
        apply ht
        rw [← he]
        have : p.1 ∈ type_mapping.map Prod.fst := List.mem_map_of_mem Prod.fst hp
        exact this
      simp [mapDataType, hnone]
    have hex : generateExampleValue t = Json.str "example" := by
      have hnone : List.lookup t example_table = none := by
        apply lookup_eq_none
        intro p hp he
        apply ht
        rw [← he]
        have hsub : ∀ p ∈ example_table, p.1 ∈ recognizedTypes := by decide
        exact hsub p hp
      simp [generateExampleValue, hnone]
    refine ⟨hmap, hex, ?_⟩
    intro attr hat
    have h := generateProperty_fields attr
    rw [hat, hmap, hex] at h
    exact ⟨h.1, h.2.1, h.2.2⟩

/-- C4 witness: the unrecognized type "geo" yields a bare string property with
no format and example "example". -/
theorem type_mapping_exact_witness :
    mapDataType "geo" = ("string", none) ∧
    generateExampleValue "geo" = Json.str "example" ∧
    (generateProperty attrGeo).lookup "type" = some (Json.str "string") ∧
    (generateProperty attrGeo).lookup "format" = none ∧
    (generateProperty attrGeo).lookup "example" = some (Json.str "example") := by
  have h := type_mapping_exact.2.2 "geo" (by decide)
  exact ⟨h.1, h.2.1, h.2.2 attrGeo rfl⟩

/-- The `required` component of the attribute fold: the names of the
attributes whose `required` field is true, in declaration order. -/
theorem schemaStep_required (attrs : List Attribute) :
    ∀ acc : List (String × Json) × List Json,
      (attrs.foldl schemaStep acc).2 =
        acc.2 ++ (attrs.filter (fun a => a.required.getD false)).map
          (fun a => Json.str a.name) := by
  induction attrs with
  | nil => intro acc; simp
  | cons a rest ih =>
      intro acc
      rw [List.foldl_cons, ih]
      by_cases h : a.required.getD false <;> simp [schemaStep, h]

/-- C3: the schema's `required` array is exactly the names of the attributes
whose `required` field is true, in declaration order, and a name occurs in it
exactly when some attribute with that name is marked required; the spec's
example entity yields `["id", "email"]`. -/
theorem schema_required_exact (entity : Entity) :
    (generateEntitySchema entity).lookup "required" =
      some (Json.arr (((entity.attributes.getD []).filter
        (fun a => a.required.getD false)).map (fun a => Json.str a.name))) ∧
    (∀ n : String,
      Json.str n ∈ ((entity.attributes.getD []).filter
        (fun a => a.required.getD false)).map (fun a => Json.str a.name) ↔
      ∃ a ∈ entity.attributes.getD [], a.name = n ∧ a.required.getD false = true) ∧
    (generateEntitySchema entU).lookup "required" =
      some (Json.arr [Json.str "id", Json.str "email"]) := by
  refine ⟨?_, ?_, rfl⟩
  · cases htc : entity.taxonomy_classification <;>
      simp [generateEntitySchema, htc, Json.lookup, assocFind, schemaStep_required]
  · intro n
    simp only [List.mem_map, List.mem_filter, Json.str.injEq]
    constructor
    · rintro ⟨a, ⟨ha, hr⟩, he⟩
      exact ⟨a, ha, he, hr⟩
    · rintro ⟨a, ha, hn, hr⟩
      exact ⟨a, ⟨ha, hr⟩, hn⟩

/-- Membership in the compliance insertion sequence is membership in some
entity's compliance list. -/
theorem mem_complianceSeq (s : String) :
    ∀ ents : List Entity,
      s ∈ complianceSeq ents ↔ ∃ ent ∈ ents, s ∈ entityCompliance ent := by
  intro ents
  induction ents with
  | nil => simp [complianceSeq]
  | cons e rest ih => simp [complianceSeq, List.mem_append, ih]

/-- Extracting the strings back out of a string-array JSON value. -/
theorem filterMap_str (l : List String) :
    List.filterMap ((fun j => match j with
      | Json.str s => some s
      | _ => none) ∘ Json.str) l = l := by
  induction l with
  | nil => rfl
  | cons a rest ih => simp [List.filterMap_cons, ih]

/-- C7: exactly when the taxonomy mapping is non-empty, the document carries a
top-level `x-taxonomy` extension holding the model's domain, the model's
version, and a duplicate-free list whose members are precisely the union of
every entity's compliance list. -/
theorem xtaxonomy_compliance_union (m : Model) (t : List (String × Json))
    (e : List String → List String) (he : validEnum e) :
    (t.isEmpty = false →
      (generate_from_model m t e).lookup "x-taxonomy" = some (xTaxonomyValue m e) ∧
      (e (complianceSeq (m.entities.getD []))).Nodup ∧
      (∀ s : String, s ∈ e (complianceSeq (m.entities.getD [])) ↔
        ∃ ent ∈ m.entities.getD [], s ∈ entityCompliance ent)) ∧
    (t.isEmpty = true → (generate_from_model m t e).lookup "x-taxonomy" = none) := by
  constructor
  · intro ht
    refine ⟨?_, (he _).1, fun s => ((he _).2 s).trans (mem_complianceSeq s _)⟩
    simp [generate_from_model, Json.lookup, assocFind, ht, xTaxonomyValue]
  · intro ht
    simp [generate_from_model, Json.lookup, assocFind, ht]

/-- C7 witness: on the spec's two-entity compliance model with a non-empty
taxonomy, the extension is attached and "HIPAA" is in the deduplicated union
exactly because an entity carries it. -/
theorem xtaxonomy_compliance_union_witness :
    (generate_from_model mGH taxCustom List.dedup).lookup "x-taxonomy" =
      some (xTaxonomyValue mGH List.dedup) ∧
    (List.dedup (complianceSeq (mGH.entities.getD []))).Nodup ∧
    ("HIPAA" ∈ List.dedup (complianceSeq (mGH.entities.getD [])) ↔
      ∃ ent ∈ mGH.entities.getD [], "HIPAA" ∈ entityCompliance ent) := by
  have h := (xtaxonomy_compliance_union mGH taxCustom List.dedup validEnum_dedup).1 rfl
  exact ⟨h.1, h.2.1, h.2.2 "HIPAA"⟩

/-- C6 counterexample: two faithful set enumerations (two runs of the
interpreter with different hash seeds) yield different serialized documents on
the same inputs, so generation is not a deterministic function of the model
and taxonomy alone. -/
theorem determinism_counterexample :
    validEnum List.dedup ∧ validEnum enumRev ∧
    generate_from_model mGH taxCustom List.dedup ≠
      generate_from_model mGH taxCustom enumRev :=
  ⟨validEnum_dedup, validEnum_enumRev,
   fun h => absurd (congrArg complianceOf h) (by decide)⟩

/-- C6 (amended): two runs on identical inputs agree everywhere except the
order of the `x-taxonomy` compliance list, which is a permutation; with an
empty taxonomy the output is fully identical. -/
theorem deterministic_up_to_compliance (m : Model) (t : List (String × Json))
    (e1 e2 : List String → List String) (h1 : validEnum e1) (h2 : validEnum e2) :
    stripCompliance (generate_from_model m t e1) =
      stripCompliance (generate_from_model m t e2) ∧
    (complianceOf (generate_from_model m t e1)).Perm
      (complianceOf (generate_from_model m t e2)) ∧
    (t.isEmpty = true → generate_from_model m t e1 = generate_from_model m t e2) := by
  refine ⟨?_, ?_, ?_⟩
  · by_cases ht : t.isEmpty <;>
      simp [generate_from_model, stripCompliance, setAtKey, ht]
  · by_cases ht : t.isEmpty
    · have hc1 : complianceOf (generate_from_model m t e1) = [] := by
        simp [generate_from_model, complianceOf, Json.lookup, assocFind, ht]
      have hc2 : complianceOf (generate_from_model m t e2) = [] := by
        simp [generate_from_model, complianceOf, Json.lookup, assocFind, ht]
      rw [hc1, hc2]
    · rw [Bool.not_eq_true] at ht
      have hc1 : complianceOf (generate_from_model m t e1) =
          e1 (complianceSeq (m.entities.getD [])) := by
        simp [generate_from_model, complianceOf, Json.lookup, assocFind, ht, filterMap_str]
      have hc2 : complianceOf (generate_from_model m t e2) =
          e2 (complianceSeq (m.entities.getD [])) := by
        simp [generate_from_model, complianceOf, Json.lookup, assocFind, ht, filterMap_str]
      rw [hc1, hc2]
      exact (List.perm_ext_iff_of_nodup (h1 _).1 (h2 _).1).mpr
        (fun s => ((h1 _).2 s).trans (((h2 _).2 s).symm))
  · intro ht
    simp [generate_from_model, ht]

/-- C6 witness: the two concrete enumerations agree up to compliance order on
the compliance model. -/
theorem deterministic_up_to_compliance_witness :
    stripCompliance (generate_from_model mGH taxCustom List.dedup) =
      stripCompliance (generate_from_model mGH taxCustom enumRev) ∧
    (complianceOf (generate_from_model mGH taxCustom List.dedup)).Perm
      (complianceOf (generate_from_model mGH taxCustom enumRev)) :=
  ⟨(deterministic_up_to_compliance mGH taxCustom List.dedup enumRev
      validEnum_dedup validEnum_enumRev).1,
   (deterministic_up_to_compliance mGH taxCustom List.dedup enumRev
      validEnum_dedup validEnum_enumRev).2.1⟩

/-- String concatenation concatenates the character lists. -/
theorem data_append (s t : String) : (s ++ t).data = s.data ++ t.data := by
  cases s; cases t; rfl

/-- The character list of a collection path key. -/
theorem basePathOf_data (n : String) : (basePathOf n).data = '/' :: (n.data ++ ['s']) := by
  cases n with
  | mk l => rfl

/-- The character list of an item path key. -/
theorem entityPathOf_data (n : String) :
    (entityPathOf n).data =
      '/' :: (n.data ++ ('s' :: '/' :: '\x7b' :: (n.data ++ ['I', 'd', '\x7d']))) := by
  simp [entityPathOf, basePathOf, data_append, List.append_assoc]

/-- The collection path key, re-associated to expose its last character. -/
theorem basePathOf_data2 (n : String) :
    (basePathOf n).data = ('/' :: n.data) ++ ['s'] :=
  basePathOf_data n

/-- The item path key, re-associated to expose its last character. -/
theorem entityPathOf_data2 (n : String) :
    (entityPathOf n).data =
      ('/' :: (n.data ++ ('s' :: '/' :: '\x7b' :: (n.data ++ ['I', 'd'])))) ++ ['\x7d'] := by
  rw [entityPathOf_data]
  simp [List.append_assoc]

/-- Collection path keys of distinct lowercased names are distinct. -/
theorem basePathOf_inj {a b : String} (h : basePathOf a = basePathOf b) : a = b := by
  have hd := congrArg String.data h
  rw [basePathOf_data, basePathOf_data] at hd
  injection hd with h1 h2
  have hlen : a.data.length = b.data.length := by
    have := congrArg List.length h2
    simp only [List.length_append, List.length_cons] at this
    omega
  exact String.ext ((List.append_inj h2 hlen).1)

/-- Item path keys of distinct lowercased names are distinct. -/
theorem entityPathOf_inj {a b : String} (h : entityPathOf a = entityPathOf b) : a = b := by
  have hd := congrArg String.data h
  rw [entityPathOf_data, entityPathOf_data] at hd
  injection hd with h1 h2
  have hlen : a.data.length = b.data.length := by
    have := congrArg List.length h2
    simp only [List.length_append, List.length_cons] at this
    omega
  exact String.ext ((List.append_inj h2 hlen).1)

/-- A collection path key never equals an item path key (they end in different
characters). -/
theorem basePathOf_ne_entityPathOf (a b : String) : basePathOf a ≠ entityPathOf b := by
  intro h
  have hd := congrArg (fun s => s.data.reverse) h
  simp only at hd
  rw [basePathOf_data2, entityPathOf_data2, List.reverse_append, List.reverse_append] at hd
  simp only [List.reverse_cons, List.reverse_nil, List.nil_append, List.cons_append,
    List.singleton_append] at hd
  injection hd with h1 h2
  exact absurd h1 (by decide)

/-- Assigning a fresh key appends the pair. -/
theorem setKey_of_not_mem (kvs : List (String × Json)) (k : String) (v : Json)
    (h : k ∉ kvs.map Prod.fst) : setKey kvs k v = kvs ++ [(k, v)] := by
  have hany : kvs.any (fun p => p.1 == k) = false := by
    rw [List.any_eq_false]
    intro p hp
    simp only [beq_iff_eq]
    intro hpk
    exact h (List.mem_map.mpr ⟨p, hp, hpk⟩)
  simp [setKey, hany]

/-- Each entity contributes two path keys. -/
theorem allPathKeys_length : ∀ ents : List Entity,
    (allPathKeys ents).length = 2 * ents.length := by
  intro ents
  induction ents with
  | nil => rfl
  | cons en rest ih =>
      simp only [allPathKeys, entityPathKeys, List.length_append, List.length_cons,
        List.length_nil, ih, List.length_cons]
      omega

/-- The entity loop: when the lowercased entity names are pairwise distinct,
the schema keys are the accumulated keys followed by the entity names in
order, and the path keys are the accumulated keys followed by the two path
keys of each entity in order. -/
theorem genStep_fold_keys (ents : List Entity) :
    ∀ acc : List (String × Json) × List (String × Json),
      ((ents.map (fun en => pyLower en.name)).Nodup) →
      (∀ en ∈ ents, en.name ∉ acc.1.map Prod.fst) →
      (∀ en ∈ ents, basePathOf (pyLower en.name) ∉ acc.2.map Prod.fst ∧
                    entityPathOf (pyLower en.name) ∉ acc.2.map Prod.fst) →
      (ents.foldl genStep acc).1.map Prod.fst = acc.1.map Prod.fst ++ ents.map Entity.name ∧
      (ents.foldl genStep acc).2.map Prod.fst = acc.2.map Prod.fst ++ allPathKeys ents := by
  induction ents with
  | nil => intro acc _ _ _; simp [allPathKeys]
  | cons en rest ih =>
      intro acc hnd hs hp
      have hsn : en.name ∉ acc.1.map Prod.fst := hs en (List.mem_cons_self en rest)
      have hpb := (hp en (List.mem_cons_self en rest)).1
      have hpe := (hp en (List.mem_cons_self en rest)).2
      have hstep1 : (genStep acc en).1.map Prod.fst = acc.1.map Prod.fst ++ [en.name] := by
        simp [genStep, setKey_of_not_mem _ _ _ hsn]
      have hstep2 : (genStep acc en).2.map Prod.fst = acc.2.map Prod.fst ++
          [basePathOf (pyLower en.name), entityPathOf (pyLower en.name)] := by
        simp only [genStep, updatePaths, generateEntityPaths, List.foldl_cons, List.foldl_nil]
        rw [setKey_of_not_mem _ _ _ hpb]
        rw [setKey_of_not_mem]
        · simp
        · simp only [List.map_append, List.mem_append]
          rintro (hmem | hmem)
          · exact hpe hmem
          · simp only [List.map_cons, List.map_nil, List.mem_singleton] at hmem
            exact basePathOf_ne_entityPathOf (pyLower en.name) (pyLower en.name) hmem.symm
      have hnd0 : (∀ x ∈ rest, ¬pyLower x.name = pyLower en.name) ∧
          (rest.map (fun e2 => pyLower e2.name)).Nodup := by simpa using hnd
      have hne : ∀ e2 ∈ rest, pyLower e2.name ≠ pyLower en.name := hnd0.1
      have hs2 : ∀ e2 ∈ rest, e2.name ∉ (genStep acc en).1.map Prod.fst := by
        intro e2 h2
        rw [hstep1]
        simp only [List.mem_append, List.mem_singleton]
        rintro (hmem | hmem)
        · exact hs e2 (List.mem_cons_of_mem en h2) hmem
        · exact hne e2 h2 (by rw [hmem])
      have hp2 : ∀ e2 ∈ rest,
          basePathOf (pyLower e2.name) ∉ (genStep acc en).2.map Prod.fst ∧
          entityPathOf (pyLower e2.name) ∉ (genStep acc en).2.map Prod.fst := by
        intro e2 h2
        rw [hstep2]
        constructor
        · simp only [List.mem_append, List.mem_cons, List.mem_nil_iff, or_false]
          rintro (hmem | hmem | hmem)
          · exact (hp e2 (List.mem_cons_of_mem en h2)).1 hmem
          · exact hne e2 h2 (basePathOf_inj hmem)
          · exact basePathOf_ne_entityPathOf _ _ hmem
        · simp only [List.mem_append, List.mem_cons, List.mem_nil_iff, or_false]
          rintro (hmem | hmem | hmem)
          · exact (hp e2 (List.mem_cons_of_mem en h2)).2 hmem
          · exact basePathOf_ne_entityPathOf _ _ hmem.symm
          · exact hne e2 h2 (entityPathOf_inj hmem)
      have hrec := ih (genStep acc en) hnd0.2 hs2 hp2
      rw [List.foldl_cons] at *
      refine ⟨?_, ?_⟩
      · rw [hrec.1, hstep1]
        simp [List.append_assoc]
      · rw [hrec.2, hstep2]
        simp [allPathKeys, entityPathKeys, List.append_assoc]

/-- C1 counterexample: a model with two distinctly named entities `A` and `a`
whose lowercased names clash: `components.schemas` has the two entity names as
claimed, but `paths` has 2 keys, not the claimed 2N = 4, because the path
keys derive from the lowercased names and collide last-write-wins. -/
theorem paths_count_counterexample :
    (mAa.entities.getD []).length = 2 ∧
    ((mAa.entities.getD []).map Entity.name).Nodup ∧
    schemasKeys (generate_from_model mAa [] List.dedup) =
      (mAa.entities.getD []).map Entity.name ∧
    (pathsKeys (generate_from_model mAa [] List.dedup)).length ≠
      2 * (mAa.entities.getD []).length :=
  ⟨rfl, by decide, by decide, by decide⟩

/-- C1 (amended): when the lowercased entity names are pairwise distinct, the
generated `components.schemas` mapping has exactly the N entity names as keys,
in declaration order, and `paths` has exactly 2N keys (one collection and one
item path per entity); with clashing derived keys, dict assignment is
last-write-wins and the counts drop accordingly. -/
theorem schemas_paths_counts (m : Model) (t : List (String × Json))
    (e : List String → List String)
    (h : ((m.entities.getD []).map (fun en => pyLower en.name)).Nodup) :
    schemasKeys (generate_from_model m t e) = (m.entities.getD []).map Entity.name ∧
    (schemasKeys (generate_from_model m t e)).length = (m.entities.getD []).length ∧
    (pathsKeys (generate_from_model m t e)).length = 2 * (m.entities.getD []).length := by
  have hk := genStep_fold_keys (m.entities.getD []) ([], []) h (by simp) (by simp)
  have hsch : schemasKeys (generate_from_model m t e) =
      ((m.entities.getD []).foldl genStep ([], [])).1.map Prod.fst := by
    by_cases ht : t.isEmpty <;>
      simp [generate_from_model, schemasKeys, Json.lookup, assocFind, Json.keys, ht]
  have hpth : pathsKeys (generate_from_model m t e) =
      ((m.entities.getD []).foldl genStep ([], [])).2.map Prod.fst := by
    by_cases ht : t.isEmpty <;>
      simp [generate_from_model, pathsKeys, Json.lookup, assocFind, Json.keys, ht]
  rw [hsch, hpth, hk.1, hk.2]
  simp [allPathKeys_length]

/-- C1 witness: the spec's one-entity example model yields one schema key
`User` and two path keys. -/
theorem schemas_paths_counts_witness :
    schemasKeys (generate_from_model mUA [] List.dedup) = ["User"] ∧
    (schemasKeys (generate_from_model mUA [] List.dedup)).length = 1 ∧
    (pathsKeys (generate_from_model mUA [] List.dedup)).length = 2 * 1 :=
  schemas_paths_counts mUA [] List.dedup (by decide)

end OpenAPIGen
